import Mathlib

/-!
Verification of the UV-Vis kinetics data-preparation pipeline
(`scripts/dataPrep.py`).

The script trains Gaussian peak-shape models on UV-Vis absorption spectra of
bromine and sodium tribromide, calibrates a linear amplitude/concentration
relation, and converts fitted amplitudes of unknown spectra into
concentrations.  Floating-point values are modelled as real numbers; the
external nonlinear solver (`scipy.optimize.curve_fit`) is modelled as an
abstract fitting oracle, fallible where the claims concern its failure.
The fitted parameter vectors `Br2opt` (10 parameters from the stage-1 bromine
fit) and `g5opt` (7 parameters from the stage-2 combined fit) are runtime
values of `curve_fit`; every definition that the script builds on top of them
is therefore parameterised by those vectors.
-/

namespace DataPrep

noncomputable section

/-- A Gaussian peak as used throughout the script: height, center wavelength,
width. -/
structure GaussianPeak where
  height : ℝ
  center : ℝ
  width : ℝ

/-- The single-Gaussian peak shape `h * exp(-(WL-c)^2 / (2*w^2))`, as inlined
in the bodies of `gauss5` and `gauss5_scale` (dataPrep.py lines 101-105 and
163-167) and provided by `spectralFunctions.gaussian`. -/
def gaussian (WL h c w : ℝ) : ℝ :=
  h * Real.exp (-((WL - c) ^ 2) / (2 * w ^ 2))

/-- Sum of Gaussian peaks over a list of peak parameter triples (the
`gaussianSum` primitive of the spec, realised in the script as explicit
three- and two-term sums). -/
def gaussianSum (WL : ℝ) (peaks : List GaussianPeak) : ℝ :=
  (peaks.map (fun p => gaussian WL p.height p.center p.width)).sum

/-- The frozen three-peak bromine reference: peaks `(Br2opt[0],Br2opt[1],Br2opt[2])`,
`(Br2opt[3],Br2opt[4],Br2opt[5])`, `(Br2opt[6],Br2opt[7],Br2opt[8])` of the
stage-1 fitted parameter vector. -/
def BromineReference (Br2opt : Fin 10 → ℝ) : List GaussianPeak :=
  [⟨Br2opt 0, Br2opt 1, Br2opt 2⟩,
   ⟨Br2opt 3, Br2opt 4, Br2opt 5⟩,
   ⟨Br2opt 6, Br2opt 7, Br2opt 8⟩]

/-- The frozen two-peak tribromide reference: peaks `(g5opt[1],g5opt[2],g5opt[3])`
and `(g5opt[4],g5opt[5],g5opt[6])` of the stage-2 fitted parameter vector. -/
def TribromideReference (g5opt : Fin 7 → ℝ) : List GaussianPeak :=
  [⟨g5opt 1, g5opt 2, g5opt 3⟩,
   ⟨g5opt 4, g5opt 5, g5opt 6⟩]

/-- The stage-2 composite model `gauss5` (dataPrep.py lines 70-105): the frozen
bromine three-Gaussian sum scaled by `h1`, plus two free tribromide Gaussians
`(h2,l2,w2)` and `(h3,l3,w3)`.  Only `Br2opt[0..8]` appear; the fitted
baseline offset `Br2opt[9]` is not used. -/
def gauss5 (Br2opt : Fin 10 → ℝ) (WL h1 h2 l2 w2 h3 l3 w3 : ℝ) : ℝ :=
  h1 * (Br2opt 0 * Real.exp (-((WL - Br2opt 1) ^ 2) / (2 * Br2opt 2 ^ 2)) +
        Br2opt 3 * Real.exp (-((WL - Br2opt 4) ^ 2) / (2 * Br2opt 5 ^ 2)) +
        Br2opt 6 * Real.exp (-((WL - Br2opt 7) ^ 2) / (2 * Br2opt 8 ^ 2))) +
  h2 * Real.exp (-((WL - l2) ^ 2) / (2 * w2 ^ 2)) +
  h3 * Real.exp (-((WL - l3) ^ 2) / (2 * w3 ^ 2))

/-- The two-amplitude scaling model `gauss5_scale` (dataPrep.py lines 141-167):
`hBr2` scales the frozen bromine sum (`Br2opt[0..8]`), `hNaBr3` scales the
frozen tribromide sum (`g5opt[1..6]`). -/
def gauss5_scale (Br2opt : Fin 10 → ℝ) (g5opt : Fin 7 → ℝ)
    (WL hBr2 hNaBr3 : ℝ) : ℝ :=
  hBr2 * (Br2opt 0 * Real.exp (-((WL - Br2opt 1) ^ 2) / (2 * Br2opt 2 ^ 2)) +
          Br2opt 3 * Real.exp (-((WL - Br2opt 4) ^ 2) / (2 * Br2opt 5 ^ 2)) +
          Br2opt 6 * Real.exp (-((WL - Br2opt 7) ^ 2) / (2 * Br2opt 8 ^ 2))) +
  hNaBr3 * (g5opt 1 * Real.exp (-((WL - g5opt 2) ^ 2) / (2 * g5opt 3 ^ 2)) +
            g5opt 4 * Real.exp (-((WL - g5opt 5) ^ 2) / (2 * g5opt 6 ^ 2)))

/-- Modelled from the spec: `spectralFunctions.gaussian3` is not under `src/`;
the spec (section 4.2) describes the stage-1 model as a three-Gaussian sum
"plus a baseline offset parameter", matching the 10-parameter call sites in
dataPrep.py lines 41-51. -/
def gaussian3 (WL h1 c1 w1 h2 c2 w2 h3 c3 w3 off : ℝ) : ℝ :=
  gaussian WL h1 c1 w1 + gaussian WL h2 c2 w2 + gaussian WL h3 c3 w3 + off

/-- The stage-2 initial parameter vector `NaBr3_p0` (dataPrep.py lines
115-117), in the argument order of `gauss5`:
`(h1, h2, l2, w2, h3, l3, w3)`. -/
structure Gauss5Params where
  h1 : ℝ
  h2 : ℝ
  l2 : ℝ
  w2 : ℝ
  h3 : ℝ
  l3 : ℝ
  w3 : ℝ

/-- The literal tuple `(0.3, 1.0, 400, 20, 2.5, 340, 20)` from the script. -/
def NaBr3_p0 : Gauss5Params :=
  ⟨0.3, 1.0, 400, 20, 2.5, 340, 20⟩

/-- The known initial bromine concentration `Br2_conc_i = 0.00342` mol/L
(dataPrep.py line 174). -/
def Br2_conc_i : ℝ := 0.00342

/-- The stoichiometric conversion `NaBr3_conc = Br2_conc_i * (1.0 - hBr2)`
(dataPrep.py line 201), applied elementwise to the vector of fitted bromine
amplitudes. -/
def NaBr3_conc (hBr2 : List ℝ) : List ℝ :=
  hBr2.map (fun h => Br2_conc_i * (1.0 - h))

/-- Modelled from the spec: the calibration line fit
`line, cov = curve_fit(spec.linear, NaBr3_conc, hNaBr3)` (dataPrep.py line
204) uses `spectralFunctions.linear`, which is not under `src/`, and an
external solver; the spec (section 4.4) states the line is fit "via ordinary
least squares", whose closed form this definition implements.  The returned
pair is `(slope, intercept)`; the script reads the slope as `line[0]`.  The
definition performs no degeneracy check, exactly as the script performs
none. -/
def fitLine (xs ys : List ℝ) : ℝ × ℝ :=
  let n : ℝ := xs.length
  let sx := xs.sum
  let sy := ys.sum
  let sxx := (xs.map (fun x => x * x)).sum
  let sxy := ((xs.zip ys).map (fun p => p.1 * p.2)).sum
  let slope := (n * sxy - sx * sy) / (n * sxx - sx * sx)
  (slope, (sy - slope * sx) / n)

/-- Loading of the wavelength axis, `WLs = train1.index.values[1:].astype(float)`
(dataPrep.py line 30): the first index entry is dropped and the rest is taken
as-is.  No validation of any kind is performed. -/
def loadWLs (indexVals : List ℝ) : List ℝ :=
  indexVals.drop 1

/-- A wavelength axis is well formed when it is strictly increasing (the
invariant of the spec's data model, section 3). -/
def axisStrictlyIncreasing (l : List ℝ) : Prop :=
  l.Chain' (fun a b => a < b)

/-- The index selection `np.argwhere(WLs > bound)[0][0]` (dataPrep.py lines
36-37, 110-111, 235-236): the first position whose wavelength exceeds the
bound (the list length when none does, where the script would raise). -/
def firstGT (bound : ℝ) : List ℝ → ℕ
  | [] => 0
  | w :: ws => if bound < w then 0 else firstGT bound ws + 1

/-- The fit window `xvals, yvals = WLs[L1:L2], col[L1:L2]` with
`L1 = argwhere(WLs > low)[0][0]` and `L2 = argwhere(WLs > high)[0][0]`. -/
def window (WLs col : List ℝ) (low high : ℝ) : List ℝ × List ℝ :=
  let L1 := firstGT low WLs
  let L2 := firstGT high WLs
  ((WLs.drop L1).take (L2 - L1), (col.drop L1).take (L2 - L1))

/-- A spectral dataset as `get_concs` consumes it: the capture times (the
first row of the transposed DataFrame) and one absorbance column per time
point (`dataset[i][1:]`). -/
structure SpectralDataset where
  times : List ℝ
  columns : List (List ℝ)

/-- The per-spectrum fit loop of `get_concs` (dataPrep.py lines 246-256) and
of the calibration stage (lines 184-191): for each index `i` in order, the
solver is invoked on the windowed spectrum `i`.  The solver is the abstract
oracle `fit`; `none` models `curve_fit` raising on non-convergence, which
aborts the whole loop — the script has no exception handling, so a single
failure yields no result at all. -/
def fitEach (fit : List ℝ × List ℝ → Option (ℝ × ℝ)) (WLs : List ℝ)
    (cols : List (List ℝ)) : List ℕ → Option (List (ℝ × ℝ))
  | [] => some []
  | i :: is =>
    match fit (window WLs (cols.getD i []) 360 650), fitEach fit WLs cols is with
    | some p, some ps => some (p :: ps)
    | _, _ => none

/-- The concentration predictor `get_concs(dataset)` (dataPrep.py lines
213-263): times are divided by 60, each spectrum is fit in the 360-650 nm
window with the scaling model (abstract oracle `fit`), and the fitted
amplitude pairs are converted by `Br2_conc_i * hbr2` and `hnabr3 / line[0]`.
`line` is the calibration pair `(slope, intercept)`; only `line.1` is
used. -/
def get_concs (fit : List ℝ × List ℝ → Option (ℝ × ℝ)) (WLs : List ℝ)
    (line : ℝ × ℝ) (dataset : SpectralDataset) :
    Option (List ℝ × List ℝ × List ℝ) :=
  let time := dataset.times.map (fun t => t / 60)
  match fitEach fit WLs dataset.columns (List.range time.length) with
  | none => none
  | some amps =>
    some (time,
          amps.map (fun p => Br2_conc_i * p.1),
          amps.map (fun p => p.2 / line.1))

/-- A concrete stage-1 parameter vector whose baseline offset (index 9) is
the script's initial guess 0.02 and whose peak parameters vanish; used to
exhibit the dropped offset at a concrete input. -/
def offsetOnlyBr2opt : Fin 10 → ℝ :=
  fun i => if i = 9 then 0.02 else 0

/-- The all-zero stage-2 parameter vector. -/
def zeroG5opt : Fin 7 → ℝ :=
  fun _ => 0

/-- A concrete fitting oracle that fails (models `curve_fit` raising on
non-convergence) exactly on the spectrum whose windowed absorbance column is
`[1]`, and converges to amplitudes `(1, 1)` everywhere else. -/
def failOnFirstFit : List ℝ × List ℝ → Option (ℝ × ℝ) :=
  fun xy => if xy.2 = [(1 : ℝ)] then none else some (1, 1)

end

/-! ### Helper lemmas -/

/-- With an always-converging oracle, the per-spectrum fit loop returns the
list of fitted amplitude pairs, one per index, in index order. -/
theorem fitEach_some (f : List ℝ × List ℝ → ℝ × ℝ) (WLs : List ℝ)
    (cols : List (List ℝ)) (is : List ℕ) :
    fitEach (fun xy => some (f xy)) WLs cols is =
      some (is.map (fun i => f (window WLs (cols.getD i []) 360 650))) := by
  induction is with
  | nil => rfl
  | cons i is ih => simp [fitEach, ih]

/-- If the oracle fails on any index of the loop, the whole loop yields
nothing. -/
theorem fitEach_none (fit : List ℝ × List ℝ → Option (ℝ × ℝ)) (WLs : List ℝ)
    (cols : List (List ℝ)) (is : List ℕ) (i : ℕ) (hi : i ∈ is)
    (hf : fit (window WLs (cols.getD i []) 360 650) = none) :
    fitEach fit WLs cols is = none := by
  induction is with
  | nil => cases hi
  | cons j js ih =>
    rcases List.mem_cons.1 hi with rfl | hmem
    · rw [fitEach, hf]
    · rw [fitEach, ih hmem]
      cases fit (window WLs (cols.getD j []) 360 650) <;> rfl

/-- Closed form of `get_concs` under an always-converging oracle. -/
theorem get_concs_some_eq (f : List ℝ × List ℝ → ℝ × ℝ) (WLs : List ℝ)
    (line : ℝ × ℝ) (dataset : SpectralDataset) :
    get_concs (fun xy => some (f xy)) WLs line dataset =
      some (dataset.times.map (fun t => t / 60),
        (List.range dataset.times.length).map
          (fun i => Br2_conc_i *
            (f (window WLs (dataset.columns.getD i []) 360 650)).1),
        (List.range dataset.times.length).map
          (fun i =>
            (f (window WLs (dataset.columns.getD i []) 360 650)).2 / line.1)) := by
  simp [get_concs, fitEach_some, List.map_map]

/-! ### Claims -/

/-- C1: for every wavelength and every amplitude pair, `gauss5_scale` equals
the bromine amplitude times the Gaussian sum of the frozen three-peak bromine
reference plus the tribromide amplitude times the Gaussian sum of the frozen
two-peak tribromide reference; in particular it vanishes at amplitudes
`(0, 0)`. -/
theorem gauss5_scale_is_amplitude_combination (Br2opt : Fin 10 → ℝ)
    (g5opt : Fin 7 → ℝ) (wl hBr2 hNaBr3 : ℝ) :
    gauss5_scale Br2opt g5opt wl hBr2 hNaBr3 =
      hBr2 * gaussianSum wl (BromineReference Br2opt) +
        hNaBr3 * gaussianSum wl (TribromideReference g5opt) ∧
    gauss5_scale Br2opt g5opt wl 0 0 = 0 := by
  constructor
  · simp only [gauss5_scale, gaussianSum, BromineReference, TribromideReference,
      gaussian, List.map_cons, List.map_nil, List.sum_cons, List.sum_nil]
    ring
  · simp [gauss5_scale]

/-- C9: for every height, center and positive width, the Gaussian peak
evaluated at its center wavelength equals its height exactly. -/
theorem gaussian_at_center (h c w : ℝ) (hw : 0 < w) :
    gaussian c h c w = h := by
  simp [gaussian]

/-- Witness for C9 at `(height, center, width) = (2, 5, 1)`. -/
theorem gaussian_at_center_witness :
    (0 : ℝ) < 1 ∧ gaussian 5 2 5 1 = 2 :=
  ⟨by norm_num, gaussian_at_center 2 5 1 (by norm_num)⟩

/-- C10: the scaling model at amplitudes `(1, 0)` is exactly the frozen
three-Gaussian bromine sum built from `Br2opt[0..8]`; whenever the fitted
baseline offset `Br2opt[9]` is nonzero, this differs from the full fitted
stage-1 model `gaussian3` evaluated at the same ten parameters — the offset
is silently dropped. -/
theorem gauss5_scale_drops_baseline_offset (Br2opt : Fin 10 → ℝ)
    (g5opt : Fin 7 → ℝ) (wl : ℝ) :
    gauss5_scale Br2opt g5opt wl 1 0 =
      gaussianSum wl (BromineReference Br2opt) ∧
    (Br2opt 9 ≠ 0 →
      gauss5_scale Br2opt g5opt wl 1 0 ≠
        gaussian3 wl (Br2opt 0) (Br2opt 1) (Br2opt 2) (Br2opt 3) (Br2opt 4)
          (Br2opt 5) (Br2opt 6) (Br2opt 7) (Br2opt 8) (Br2opt 9)) := by
  have hsum : gauss5_scale Br2opt g5opt wl 1 0 =
      gaussianSum wl (BromineReference Br2opt) := by
    simp only [gauss5_scale, gaussianSum, BromineReference, gaussian,
      List.map_cons, List.map_nil, List.sum_cons, List.sum_nil]
    ring
  have hfull : gaussian3 wl (Br2opt 0) (Br2opt 1) (Br2opt 2) (Br2opt 3)
      (Br2opt 4) (Br2opt 5) (Br2opt 6) (Br2opt 7) (Br2opt 8) (Br2opt 9) =
      gaussianSum wl (BromineReference Br2opt) + Br2opt 9 := by
    simp only [gaussian3, gaussianSum, BromineReference, gaussian,
      List.map_cons, List.map_nil, List.sum_cons, List.sum_nil]
    ring
  refine ⟨hsum, fun h9 heq => h9 ?_⟩
  rw [hsum, hfull] at heq
  linarith

/-- Witness for C10: with the baseline offset 0.02 and all peak heights zero,
the scaling model at amplitudes `(1, 0)` disagrees with the full stage-1
model. -/
theorem gauss5_scale_drops_baseline_offset_witness :
    gauss5_scale offsetOnlyBr2opt zeroG5opt 500 1 0 ≠
      gaussian3 500 (offsetOnlyBr2opt 0) (offsetOnlyBr2opt 1)
        (offsetOnlyBr2opt 2) (offsetOnlyBr2opt 3) (offsetOnlyBr2opt 4)
        (offsetOnlyBr2opt 5) (offsetOnlyBr2opt 6) (offsetOnlyBr2opt 7)
        (offsetOnlyBr2opt 8) (offsetOnlyBr2opt 9) :=
  (gauss5_scale_drops_baseline_offset offsetOnlyBr2opt zeroG5opt 500).2
    (by norm_num [offsetOnlyBr2opt])

/-- C2: for every input dataset, `get_concs` (with a converging solver)
returns one triple per input spectrum in input order: the time axis, then
`concBr2 = Br2_conc_i * amplitudeBr2` and `concNaBr3 = amplitudeNaBr3 / slope`
per spectrum, where the slope is `line[0]` and no intercept term is
subtracted. -/
theorem get_concs_conversion (f : List ℝ × List ℝ → ℝ × ℝ) (WLs : List ℝ)
    (line : ℝ × ℝ) (dataset : SpectralDataset) :
    get_concs (fun xy => some (f xy)) WLs line dataset =
      some (dataset.times.map (fun t => t / 60),
        (List.range dataset.times.length).map
          (fun i => Br2_conc_i *
            (f (window WLs (dataset.columns.getD i []) 360 650)).1),
        (List.range dataset.times.length).map
          (fun i =>
            (f (window WLs (dataset.columns.getD i []) 360 650)).2 / line.1)) :=
  get_concs_some_eq f WLs line dataset

/-- C3: the calibration stage derives each implied tribromide concentration
as `concNaBr3 = 0.00342 * (1 - amplitudeBr2)`, elementwise; on the amplitude
vector `[1.0, 0.7, 0.4]` this yields exactly `[0, 0.001026, 0.002052]`. -/
theorem NaBr3_conc_stoichiometry :
    (∀ (amps : List ℝ) (i : ℕ), i < amps.length →
      (NaBr3_conc amps).getD i 0 = 0.00342 * (1 - amps.getD i 0)) ∧
    NaBr3_conc [1.0, 0.7, 0.4] = [0, 0.001026, 0.002052] := by
  constructor
  · intro amps i h
    norm_num [NaBr3_conc, Br2_conc_i, List.getD_eq_getElem?_getD,
      List.getElem?_eq_getElem h]
  · norm_num [NaBr3_conc, Br2_conc_i]

/-- Witness for C3 at the amplitude vector `[0.5]`, index 0. -/
theorem NaBr3_conc_stoichiometry_witness :
    (0 : ℕ) < [(0.5 : ℝ)].length ∧
    (NaBr3_conc [(0.5 : ℝ)]).getD 0 0 = 0.00342 * (1 - [(0.5 : ℝ)].getD 0 0) :=
  ⟨by norm_num, NaBr3_conc_stoichiometry.1 [(0.5 : ℝ)] 0 (by norm_num)⟩

/-- C5 counterexample: on a degenerate calibration set whose derived
tribromide concentrations are all identical (amplitudes `[0.5, 0.5, 0.5]`),
the calibration fit silently returns the pair `(0, 1)` — slope zero from the
vanishing denominator — rather than failing with any error; no
DegenerateCalibration path exists in the code. -/
theorem calibration_degenerate_silent_cex :
    fitLine (NaBr3_conc [0.5, 0.5, 0.5]) [0, 1, 2] = (0, 1) := by
  norm_num [fitLine, NaBr3_conc, Br2_conc_i]

/-- C5 amended: the calibration fitter performs no degeneracy check; for a
zero-variance abscissa (any constant concentration vector) it silently
returns slope 0 (the embedding's value for the OLS division by zero; NaN in
floating point), never an explicit failure. -/
theorem fitLine_constant_slope_zero (n : ℕ) (c : ℝ) (ys : List ℝ) :
    (fitLine (List.replicate n c) ys).1 = 0 := by
  have h1 : (List.replicate n c).sum = (n : ℝ) * c := by
    simp [List.sum_replicate, nsmul_eq_mul]
  have h2 : ((List.replicate n c).map (fun x => x * x)).sum =
      (n : ℝ) * (c * c) := by
    simp [List.map_replicate, List.sum_replicate, nsmul_eq_mul]
  simp only [fitLine, List.length_replicate, h1, h2]
  have hden : (n : ℝ) * ((n : ℝ) * (c * c)) - (n : ℝ) * c * ((n : ℝ) * c) = 0 := by
    ring
  rw [hden, div_zero]

/-- C7 counterexample: the stage-2 initial guess sets the bromine amplitude
to 0.3, which is not approximately 1.0 (it misses 1.0 by 0.7). -/
theorem NaBr3_p0_amplitude_cex :
    NaBr3_p0.h1 = 0.3 ∧ ¬ |NaBr3_p0.h1 - 1| ≤ 0.5 := by
  constructor
  · rfl
  · rw [show NaBr3_p0.h1 = (0.3 : ℝ) from rfl, abs_le]
    norm_num

/-- C7 amended: the stage-2 combined fit starts from the initial guess with
bromine amplitude 0.3 and tribromide peak guesses (height 1.0, center
400 nm, width 20) and (height 2.5, center 340 nm, width 20). -/
theorem NaBr3_p0_fields :
    NaBr3_p0.h1 = 0.3 ∧ NaBr3_p0.h2 = 1.0 ∧ NaBr3_p0.l2 = 400 ∧
    NaBr3_p0.w2 = 20 ∧ NaBr3_p0.h3 = 2.5 ∧ NaBr3_p0.l3 = 340 ∧
    NaBr3_p0.w3 = 20 :=
  ⟨rfl, rfl, rfl, rfl, rfl, rfl, rfl⟩

/-- C4 counterexample: on a two-spectrum dataset where the solver fails only
on the first spectrum (windowed column `[1]`) and converges on the second
(windowed column `[2]`), `get_concs` returns nothing at all — no result for
the convergent second spectrum and no per-spectrum failure record; the batch
does not continue. -/
theorem batch_abort_cex :
    get_concs failOnFirstFit [400] (1, 0) ⟨[0, 60], [[1], [2]]⟩ = none ∧
    failOnFirstFit (window [400] [2] 360 650) = some (1, 1) := by
  constructor
  · norm_num [get_concs, fitEach, failOnFirstFit, window, firstGT,
      List.range_succ]
  · norm_num [failOnFirstFit, window, firstGT]

/-- C4 amended: in the batch fitting loop, a solver failure on any single
spectrum makes the whole `get_concs` run produce nothing (the exception
propagates and aborts the batch); no partial results and no failure records
exist. -/
theorem get_concs_aborts_on_fit_failure
    (fit : List ℝ × List ℝ → Option (ℝ × ℝ)) (WLs : List ℝ) (line : ℝ × ℝ)
    (dataset : SpectralDataset) (i : ℕ) (hi : i < dataset.times.length)
    (hf : fit (window WLs (dataset.columns.getD i []) 360 650) = none) :
    get_concs fit WLs line dataset = none := by
  have hmem : i ∈ List.range (dataset.times.map (fun t => t / 60)).length := by
    simpa using hi
  simp only [get_concs]
  rw [fitEach_none fit WLs dataset.columns _ i hmem hf]

/-- Witness for the amended C4 with an everywhere-failing solver on a
one-spectrum dataset. -/
theorem get_concs_aborts_on_fit_failure_witness :
    get_concs (fun _ => none) [400] (1, 0) ⟨[0], [[1]]⟩ = none :=
  get_concs_aborts_on_fit_failure (fun _ => none) [400] (1, 0) ⟨[0], [[1]]⟩ 0
    (by norm_num) rfl

/-- C6 counterexample: the load of the wavelength axis accepts the
non-strictly-increasing axis `[500, 400]` unchanged (dropping only the
leading index entry); no MalformedInput error is raised — no validation
exists at load time. -/
theorem load_accepts_nonincreasing_axis_cex :
    loadWLs [0, 500, 400] = [500, 400] ∧
    ¬ axisStrictlyIncreasing [500, 400] := by
  constructor
  · rfl
  · norm_num [axisStrictlyIncreasing, List.chain'_cons]

/-- C6 amended: the program performs no wavelength-axis validation: the axis
is taken from the file index as-is (only the leading entry dropped), and
fitting proceeds on a non-increasing axis without any error being raised. -/
theorem pipeline_runs_on_nonincreasing_axis
    (raw : List ℝ) (f : List ℝ × List ℝ → ℝ × ℝ) (line : ℝ × ℝ)
    (dataset : SpectralDataset)
    (hax : ¬ axisStrictlyIncreasing (loadWLs raw)) :
    loadWLs raw = raw.drop 1 ∧
    (get_concs (fun xy => some (f xy)) (loadWLs raw) line dataset).isSome =
      true := by
  refine ⟨rfl, ?_⟩
  rw [get_concs_some_eq]
  rfl

/-- Witness for the amended C6 at the concrete non-increasing axis
`[500, 400]`. -/
theorem pipeline_runs_on_nonincreasing_axis_witness :
    loadWLs [0, 500, 400] = [(0 : ℝ), 500, 400].drop 1 ∧
    (get_concs (fun xy => some ((fun _ => ((1 : ℝ), (1 : ℝ))) xy))
        (loadWLs [0, 500, 400]) (1, 0) ⟨[0], [[1]]⟩).isSome = true :=
  pipeline_runs_on_nonincreasing_axis [0, 500, 400] (fun _ => (1, 1)) (1, 0)
    ⟨[0], [[1]]⟩
    (by norm_num [loadWLs, axisStrictlyIncreasing, List.chain'_cons])

/-- C8: the predictor divides every capture time by 60 to produce the output
time axis, and only there — replacing the time values by any others of the
same count leaves both concentration columns unchanged, so the
amplitude-to-concentration conversions involve no time rescaling. -/
theorem get_concs_time_axis (f : List ℝ × List ℝ → ℝ × ℝ) (WLs : List ℝ)
    (line : ℝ × ℝ) (ts ts2 : List ℝ) (cols : List (List ℝ))
    (h : ts.length = ts2.length) :
    (get_concs (fun xy => some (f xy)) WLs line ⟨ts, cols⟩).map
        (fun r => r.1) = some (ts.map (fun t => t / 60)) ∧
    (get_concs (fun xy => some (f xy)) WLs line ⟨ts, cols⟩).map
        (fun r => r.2) =
      (get_concs (fun xy => some (f xy)) WLs line ⟨ts2, cols⟩).map
        (fun r => r.2) := by
  rw [get_concs_some_eq, get_concs_some_eq]
  simp [h]

/-- Witness for C8 with times `[60]` and `[120]` over a one-column dataset. -/
theorem get_concs_time_axis_witness :
    (get_concs (fun xy => some ((fun _ => ((1 : ℝ), (1 : ℝ))) xy)) [400]
        (1, 0) ⟨[60], [[1]]⟩).map (fun r => r.1) =
      some ([(60 : ℝ)].map (fun t => t / 60)) ∧
    (get_concs (fun xy => some ((fun _ => ((1 : ℝ), (1 : ℝ))) xy)) [400]
        (1, 0) ⟨[60], [[1]]⟩).map (fun r => r.2) =
      (get_concs (fun xy => some ((fun _ => ((1 : ℝ), (1 : ℝ))) xy)) [400]
        (1, 0) ⟨[120], [[1]]⟩).map (fun r => r.2) :=
  get_concs_time_axis (fun _ => (1, 1)) [400] (1, 0) [60] [120] [[1]] rfl

end DataPrep
